import Mathlib

/-!
Verification of the Termux Orchestrator build-delivery pipeline.

The definitions below are shallow embeddings of the pipeline scripts:
the artifact downloader (`downloadFile`, `extractArtifact`,
`validateArtifact`, `findFiles`), the CI pollers (`poll_github` from
poll_and_deliver.sh and `pollGitHubActions` from trigger_ci.js), the
installer chain (`auto_install_main` from auto_install.sh,
`install_apk` from poll_and_deliver.sh) and the delivery driver
(`poll_and_deliver_main`).  External effects (HTTP, subprocesses, the
filesystem) are passed in as explicit parameters, so every definition
is an executable total function.
-/

namespace TermuxOrchestrator

/-! ## HTTP download (download_artifact.js, `downloadFile`)

The network is a function from (url, headers) to the event observed for
that request: a response, a transport error on the request object, or a
stall past the fixed 5-minute ceiling (`request.setTimeout(300000)`).
A response carries the status code, the optional Location header, the
declared content-length and the body bytes that were streamed. -/

structure HttpResponse where
  statusCode : Nat
  location : Option String
  contentLength : Nat
  body : List Nat
  deriving Repr, DecidableEq

inductive HttpEvent where
  | response (r : HttpResponse)
  | transportError (msg : String)
  | stall
  deriving Repr, DecidableEq

inductive DownloadResult where
  | ok (path : String) (bytesWritten : Nat)
  | error (msg : String)
  deriving Repr, DecidableEq

/-- `downloadFile` from download_artifact.js.  On a 302 or 301 response it
re-issues the request against the Location header with the SAME headers
object; on a non-200 terminal response it rejects with `HTTP <code>`;
on a 200 it streams the body to the output path and resolves with that
path; `request.on(error)` rejects with the transport message and the
5-minute `setTimeout` rejects with `Download timeout`.  The second
component of the result is the trace of (url, headers) requests issued.
The fuel argument bounds the redirect chain (the JS recursion has no
bound; the claims only need finite chains). -/
def downloadFile (net : String → List (String × String) → HttpEvent) :
    Nat → String → String → List (String × String) →
    DownloadResult × List (String × List (String × String))
  | 0, _, _, _ => (.error "redirect fuel exhausted", [])
  | fuel + 1, url, outputPath, headers =>
    match net url headers with
    | .response r =>
      if r.statusCode = 302 ∨ r.statusCode = 301 then
        match r.location with
        | some loc =>
          let rest := downloadFile net fuel loc outputPath headers
          (rest.1, (url, headers) :: rest.2)
        | none => (.error "missing redirect location", [(url, headers)])
      else if r.statusCode ≠ 200 then
        (.error ("HTTP " ++ toString r.statusCode), [(url, headers)])
      else
        (.ok outputPath r.body.length, [(url, headers)])
    | .transportError msg => (.error msg, [(url, headers)])
    | .stall => (.error "Download timeout", [(url, headers)])

/-! ## Archive extraction (download_artifact.js, `extractArtifact`)

The filesystem tree produced by `unzip` is passed in explicitly; `none`
models any failure inside the try block (mkdir, unzip, readdir). -/

inductive FsTree where
  | file (name : String)
  | dir (name : String) (children : List FsTree)

def FsTree.entryName : FsTree → String
  | .file n => n
  | .dir n _ => n

/-- Splitting a character list on a separator character, with the
semantics of JS `split` on a one-character separator (the empty input
gives one empty group). -/
def splitOnChar (c : Char) : List Char → List (List Char)
  | [] => [[]]
  | x :: xs =>
    match splitOnChar c xs with
    | [] => [[]]
    | g :: gs => if x = c then [] :: g :: gs else (x :: g) :: gs

/-- JS `String.endsWith`, computed structurally on the character
data. -/
def strEndsWith (s post : String) : Bool := List.isSuffixOf post.data s.data

/-- The expected mobile payload extension test used by `extractArtifact`:
`f.endsWith(.apk) || f.endsWith(.ipa) || f.endsWith(.aab)`. -/
def isExpectedPayload (name : String) : Bool :=
  strEndsWith name ".apk" || strEndsWith name ".ipa" || strEndsWith name ".aab"

/-- Joining character-list path components with slashes. -/
def intercalateSlash : List (List Char) → List Char
  | [] => []
  | [g] => g
  | g :: gs => g ++ '/' :: intercalateSlash gs

/-- `path.dirname` for ordinary slash-separated paths. -/
def dirname (p : String) : String :=
  let parts := splitOnChar '/' p.data
  if parts.length ≤ 1 then "." else ⟨intercalateSlash parts.dropLast⟩

/-- `path.basename` for ordinary slash-separated paths. -/
def basename (p : String) : String := ⟨(splitOnChar '/' p.data).getLastD []⟩

/-- `path.basename(zipPath, .zip)`: the last component with a trailing
`.zip` removed. -/
def basenameStripZip (p : String) : String :=
  let b := basename p
  if strEndsWith b ".zip" then ⟨b.data.take (b.data.length - 4)⟩ else b

/-- The extraction directory `path.join(path.dirname(zipPath),
path.basename(zipPath, .zip))` built by `extractArtifact`. -/
def extractDirOf (zipPath : String) : String :=
  dirname zipPath ++ "/" ++ basenameStripZip zipPath

/-- `extractArtifact` from download_artifact.js (part_000).  A path not
ending in `.zip` is returned unchanged.  Otherwise the zip is unpacked
into the sibling directory and `fs.readdirSync(extractDir)` lists the
TOP-LEVEL entry names only; the first name passing `isExpectedPayload`
is returned (joined to the directory), else the directory itself.  Any
failure in the try block (`unzipped = none`) returns the original zip
path. -/
def extractArtifact (zipPath : String) (unzipped : Option (List FsTree)) : String :=
  if !strEndsWith zipPath ".zip" then zipPath
  else
    match unzipped with
    | none => zipPath
    | some entries =>
      let extractDir := extractDirOf zipPath
      match (entries.map FsTree.entryName).find? isExpectedPayload with
      | some f => extractDir ++ "/" ++ f
      | none => extractDir

mutual
/-- Modelled from the spec: "unpack it into a sibling directory and scan
recursively for the first file matching the expected payload extension
set".  This is the spec-side recursive scan, used to compare against the
top-level scan the code actually performs. -/
def findPayloadTree : FsTree → Option String
  | .file n => if isExpectedPayload n then some n else none
  | .dir _ cs => findPayloadForest cs

/-- Recursive scan of a list of entries; see `findPayloadTree`. -/
def findPayloadForest : List FsTree → Option String
  | [] => none
  | t :: ts =>
    match findPayloadTree t with
    | some f => some f
    | none => findPayloadForest ts
end

/-! ## Validation (download_artifact.js, `validateArtifact`) -/

structure FileStat where
  fileExists : Bool
  size : Nat
  deriving Repr, DecidableEq

inductive ValidationResult where
  | notFound
  | empty
  | passed (warned : Bool)
  deriving Repr, DecidableEq

/-- `path.extname` for ordinary file names: the suffix of the basename
from its last dot, or the empty string when the basename has no dot or
only a leading dot. -/
def extname (p : String) : String :=
  let parts := splitOnChar '.' (basename p).data
  match parts with
  | [] => ""
  | [_] => ""
  | [[], _] => ""
  | _ => "." ++ ⟨parts.getLastD []⟩

/-- `String.toLowerCase` for ASCII file names, computed structurally on
the character data. -/
def strToLower (s : String) : String := ⟨s.data.map Char.toLower⟩

def expectedExts : List String := [".apk", ".ipa", ".aab"]

/-- `validateArtifact` from download_artifact.js (part_000): throws
`Artifact file not found` when the path does not exist, throws
`Artifact file is empty` when the size is zero, logs a non-fatal
`Warning: Unexpected file type` when the lower-cased extension is not
in the expected set (JS `includes`, i.e. membership), and returns true
otherwise. -/
def validateArtifact (stat : FileStat) (filePath : String) : ValidationResult :=
  if !stat.fileExists then .notFound
  else if stat.size = 0 then .empty
  else if strToLower (extname filePath) ∈ expectedExts then .passed false
  else .passed true

/-! ## Bash poller (poll_and_deliver.sh, `poll_github`)

One query happens per loop iteration; the event observed at the n-th
query (0-based) is either the `gh api` command failing (`queryFail`) or
a parsed `status:conclusion` pair. -/

inductive GhPollEvent where
  | queryFail
  | status (runStatus conclusion : String)
  deriving Repr, DecidableEq

inductive PollOutcome where
  | success
  | failed (conclusion : String)
  | timedOut
  deriving Repr, DecidableEq

/-- The `while [ attempts -lt max_attempts ]` loop body of
`poll_github`: each iteration issues one status query; a failed query
sleeps and retries; `completed` with conclusion `success` returns 0;
`completed` with any other conclusion dies immediately; any other
status sleeps and retries; when the attempts are exhausted the script
dies with the timeout message.  Returns the outcome and the number of
status queries performed. -/
def poll_githubLoop (resp : Nat → GhPollEvent) : Nat → Nat → PollOutcome × Nat
  | 0, q => (.timedOut, q)
  | remaining + 1, q =>
    match resp q with
    | .queryFail => poll_githubLoop resp remaining (q + 1)
    | .status s c =>
      if s = "completed" then
        if c = "success" then (.success, q + 1) else (.failed c, q + 1)
      else poll_githubLoop resp remaining (q + 1)

/-- `poll_github` from poll_and_deliver.sh:
`max_attempts=$((TIMEOUT_SECONDS / POLL_INTERVAL))` (bash integer
division truncates), then the polling loop. -/
def poll_github (resp : Nat → GhPollEvent) (timeoutSeconds pollInterval : Nat) :
    PollOutcome × Nat :=
  poll_githubLoop resp (timeoutSeconds / pollInterval) 0

/-- A poll event that is not a terminal build status: the query failed,
or the returned status is not `completed`. -/
def GhNonTerminal (ev : GhPollEvent) : Prop :=
  ev = .queryFail ∨ ∃ s c, ev = .status s c ∧ s ≠ "completed"

/-! ## JS poller (trigger_ci.js, `pollGitHubActions`)

`maxAttempts = maxWaitMinutes * 2` and the body polls every 30 seconds.
The whole body sits in a try whose catch logs and retries on every
attempt but the last, where it rethrows.  The throw raised on
`completed` with a non-success conclusion is therefore ALSO caught and
retried.  The artifact URL fetched in the success branch is passed in
as `artifactUrl` (its `gh api` call is assumed to succeed). -/

inductive JsPollEvent where
  | status (runStatus conclusion : String)
  | queryError (msg : String)
  deriving Repr, DecidableEq

inductive JsPollResult where
  | success (artifactUrl : String)
  | failure (msg : String)
  deriving Repr, DecidableEq

/-- The `for` loop of `pollGitHubActions`, returning the result and the
number of status queries issued. -/
def pollGitHubActionsLoop (resp : Nat → JsPollEvent) (artifactUrl : String) :
    Nat → Nat → JsPollResult × Nat
  | 0, q => (.failure "Build did not complete within the wait budget", q)
  | remaining + 1, q =>
    match resp q with
    | .queryError msg =>
      if remaining = 0 then (.failure msg, q + 1)
      else pollGitHubActionsLoop resp artifactUrl remaining (q + 1)
    | .status s c =>
      if s = "completed" then
        if c = "success" then (.success artifactUrl, q + 1)
        else if remaining = 0 then
          (.failure ("Build failed with conclusion: " ++ c), q + 1)
        else pollGitHubActionsLoop resp artifactUrl remaining (q + 1)
      else pollGitHubActionsLoop resp artifactUrl remaining (q + 1)

/-- `pollGitHubActions` from trigger_ci.js. -/
def pollGitHubActions (resp : Nat → JsPollEvent) (artifactUrl : String)
    (maxWaitMinutes : Nat) : JsPollResult × Nat :=
  pollGitHubActionsLoop resp artifactUrl (maxWaitMinutes * 2) 0

/-! ## Installer chain (auto_install.sh) -/

structure InstallEnv where
  forceAdb : Bool
  termuxOpenAvail : Bool
  termuxOpenOk : Bool
  adbAvail : Bool
  adbVersionOk : Bool
  deviceAuthorized : Bool
  /-- Success of the k-th `adb install -r` invocation of the run. -/
  adbInstallOk : Nat → Bool

inductive InstallMethod where
  | termuxOpen
  | adb
  | manualFallback
  deriving Repr, DecidableEq

inductive InstallOutcome where
  | installedViaPrimary
  | installedViaSecondary
  | manualRequired
  deriving Repr, DecidableEq

structure InstallRun where
  outcome : InstallOutcome
  trace : List InstallMethod
  exitCode : Nat
  deriving Repr, DecidableEq

/-- `install_via_termux_open`: available and the handoff call returns
success. -/
def install_via_termux_open (e : InstallEnv) : Bool :=
  e.termuxOpenAvail && e.termuxOpenOk

/-- `check_adb_status`: adb present, `adb version` works, and
`adb devices` shows an authorized device. -/
def check_adb_status (e : InstallEnv) : Bool :=
  e.adbAvail && e.adbVersionOk && e.deviceAuthorized

/-- `install_via_adb`: the status check gates the k-th
`adb install -r` invocation. -/
def install_via_adb (e : InstallEnv) (attempt : Nat) : Bool :=
  check_adb_status e && e.adbInstallOk attempt

/-- The method-attempt sequence of `main` in auto_install.sh: with
`--force-adb` an ADB attempt runs first and exits 0 on success;
otherwise (and after a failed forced attempt) the chain runs
termux-open, then ADB, then `manual_fallback` followed by `exit 1`.
The trace records each method function invoked, in order. -/
def auto_install_main (e : InstallEnv) : InstallRun :=
  if e.forceAdb && install_via_adb e 0 then
    { outcome := .installedViaSecondary, trace := [.adb], exitCode := 0 }
  else
    let pre : List InstallMethod := if e.forceAdb then [.adb] else []
    let k : Nat := if e.forceAdb then 1 else 0
    if install_via_termux_open e then
      { outcome := .installedViaPrimary, trace := pre ++ [.termuxOpen], exitCode := 0 }
    else if install_via_adb e k then
      { outcome := .installedViaSecondary, trace := pre ++ [.termuxOpen, .adb], exitCode := 0 }
    else
      { outcome := .manualRequired,
        trace := pre ++ [.termuxOpen, .adb, .manualFallback], exitCode := 1 }

/-! ## Delivery driver (poll_and_deliver.sh, `main` and its helpers) -/

structure DeliverInstallEnv where
  termuxOpenAvail : Bool
  termuxOpenOk : Bool
  adbAvail : Bool
  deviceConnected : Bool
  adbInstallOk : Bool
  deriving Repr, DecidableEq

/-- `install_apk` from poll_and_deliver.sh: termux-open if available and
successful, else adb when present with a connected device, else the
manual-fallback notification and return 1. -/
def install_apk (e : DeliverInstallEnv) : Bool :=
  if e.termuxOpenAvail && e.termuxOpenOk then true
  else if e.adbAvail && e.deviceConnected && e.adbInstallOk then true
  else false

structure PipelineEnv where
  pollEvents : Nat → GhPollEvent
  timeoutSeconds : Nat
  pollInterval : Nat
  /-- The `--ci` provider name, interpolated into the log lines. -/
  ciProvider : String
  /-- The assembled node command text, interpolated into a log line. -/
  downloadCmd : String
  /-- Whether the node download script exits 0. -/
  downloadOk : Bool
  /-- The `jq -r .file` parse of the download result, when it parses. -/
  parsedFile : Option String
  /-- The `find $OUTPUT_DIR -name *.apk` fallback result. -/
  apkSearch : Option String
  stat : String → FileStat
  autoInstall : Bool
  installEnv : DeliverInstallEnv

/-- `download_artifact` from poll_and_deliver.sh, as observed by the
caller through `apk_file=$(download_artifact ...)`.  `log()` pipes its
line through `tee -a` so it ALSO writes to stdout, and stdout of the
whole function is what the command substitution captures.  The function
dies (`none`, subshell exit 1) when the node script fails, when neither
the jq parse nor the find fallback yields a file, or when the chosen
path is not an existing regular file.  On success the capture is the
tee'd log lines (the dynamic bracketed timestamp prefix of each line is
elided here; only the line structure matters) followed by the final
`echo "$downloaded_file"` — a multi-line value, not a bare path. -/
def download_artifact (env : PipelineEnv) : Option (List String) :=
  if !env.downloadOk then none
  else
    match env.parsedFile with
    | some f =>
      if (env.stat f).fileExists then
        some ["Downloading artifact from " ++ env.ciProvider,
              "Running: " ++ env.downloadCmd,
              "Downloaded: " ++ f,
              f]
      else none
    | none =>
      match env.apkSearch with
      | none => none
      | some f =>
        if (env.stat f).fileExists then
          some ["Downloading artifact from " ++ env.ciProvider,
                "Running: " ++ env.downloadCmd,
                "Failed to parse download result, searching for APK files...",
                "Downloaded: " ++ f,
                f]
        else none

/-- What a bash command substitution yields for multi-line output: the
lines joined with newlines (the trailing newline is stripped). -/
def joinLines : List String → String
  | [] => ""
  | [l] => l
  | l :: ls => l ++ "\n" ++ joinLines ls

/-- Whether a string contains a newline character (a captured value
containing one cannot be the clean single-line path the caller
expects). -/
def strContainsNewline (s : String) : Bool := s.data.any (fun c => c = '\n')

structure PipelineRun where
  exitCode : Nat
  /-- Whether the run reached the artifact-download stage. -/
  downloadStarted : Bool
  /-- The file `install_apk` was invoked on, when it was. -/
  installedAttemptedOn : Option String
  deriving Repr, DecidableEq

/-- `main` of poll_and_deliver.sh: poll (any `die` exits 1), then
`apk_file=$(download_artifact ...)` (a dying subshell exits 1); the
captured value is the tee-polluted multi-line string.  The next
statement, `file_size=$(du -h "$apk_file" | cut -f1)`, succeeds only if
a file named by the entire captured string exists; under
`set -euo pipefail` its failure terminates the script with exit 1
before `install_apk` or any notification runs.  Only if the du probe
succeeds does the run proceed: with `--auto-install`, `install_apk` is
invoked on the captured value and the script exits 0 whether or not the
install succeeds; without it, the script exits 0 directly. -/
def poll_and_deliver_main (env : PipelineEnv) : PipelineRun :=
  match (poll_github env.pollEvents env.timeoutSeconds env.pollInterval).1 with
  | .failed _ => { exitCode := 1, downloadStarted := false, installedAttemptedOn := none }
  | .timedOut => { exitCode := 1, downloadStarted := false, installedAttemptedOn := none }
  | .success =>
    match download_artifact env with
    | none => { exitCode := 1, downloadStarted := true, installedAttemptedOn := none }
    | some capturedLines =>
      let apk_file := joinLines capturedLines
      if !(env.stat apk_file).fileExists then
        { exitCode := 1, downloadStarted := true, installedAttemptedOn := none }
      else if env.autoInstall then
        { exitCode := 0, downloadStarted := true, installedAttemptedOn := some apk_file }
      else
        { exitCode := 0, downloadStarted := true, installedAttemptedOn := none }

/-- The terminal outcome of `main` in download_artifact.js (part_000). -/
inductive NodeCliResult where
  | success (artifactPath : String)
  | failure
  deriving Repr, DecidableEq

/-- `main` of download_artifact.js (part_000): the provider download
either throws (`none`) or yields an artifact path; then
`downloader.validateArtifact(result.artifactPath)` runs, and any
validation throw (NotFound or Empty) lands in the catch which exits 1;
only after validation passes is the success report with the artifact
path printed. -/
def nodeDownloaderMain (downloadResult : Option String)
    (stat : String → FileStat) : NodeCliResult :=
  match downloadResult with
  | none => .failure
  | some path =>
    match validateArtifact (stat path) path with
    | .notFound => .failure
    | .empty => .failure
    | .passed _ => .success path

/-! ## Helper lemmas -/

/-- When every query observes a non-terminal event, the bash poll loop
runs its full attempt budget, one query per attempt, and times out. -/
theorem poll_githubLoop_nonterminal (resp : Nat → GhPollEvent)
    (h : ∀ n, GhNonTerminal (resp n)) :
    ∀ remaining q, poll_githubLoop resp remaining q = (.timedOut, q + remaining) := by
  intro remaining
  induction remaining with
  | zero => intro q; simp [poll_githubLoop]
  | succ r ih =>
    intro q
    cases hr : resp q with
    | queryFail =>
      simp only [poll_githubLoop, hr, ih (q + 1)]
      congr 1
      omega
    | status s c =>
      have hs : s ≠ "completed" := by
        rcases h q with h1 | ⟨s', c', he, hne⟩
        · rw [hr] at h1; cases h1
        · rw [hr] at he; cases he; exact hne
      simp only [poll_githubLoop, hr, if_neg hs, ih (q + 1)]
      congr 1
      omega

/-- A successful result of the JS poll loop can only arise from a
`completed`/`success` status event. -/
theorem pollGitHubActionsLoop_success_source (resp : Nat → JsPollEvent) (art : String) :
    ∀ remaining q u qq,
      pollGitHubActionsLoop resp art remaining q = (.success u, qq) →
      ∃ n, resp n = .status "completed" "success" := by
  intro remaining
  induction remaining with
  | zero => intro q u qq h; simp [pollGitHubActionsLoop] at h
  | succ r ih =>
    intro q u qq h
    cases hr : resp q with
    | queryError m =>
      simp only [pollGitHubActionsLoop, hr] at h
      by_cases hz : r = 0
      · simp [hz] at h
      · simp only [if_neg hz] at h
        exact ih _ _ _ h
    | status s c =>
      simp only [pollGitHubActionsLoop, hr] at h
      by_cases hs : s = "completed"
      · by_cases hc : c = "success"
        · exact ⟨q, by rw [hr, hs, hc]⟩
        · by_cases hz : r = 0
          · simp [hs, hc, hz] at h
          · simp only [if_pos hs, if_neg hc, if_neg hz] at h
            exact ih _ _ _ h
      · simp only [if_neg hs] at h
        exact ih _ _ _ h

/-- Joining two or more lines always produces a string containing a
newline. -/
theorem joinLines_two_or_more_has_newline (a b : String) (rest : List String) :
    strContainsNewline (joinLines (a :: b :: rest)) = true := by
  have hdata : ∀ s t : String, (s ++ t).data = s.data ++ t.data :=
    fun ⟨_⟩ ⟨_⟩ => rfl
  simp [joinLines, strContainsNewline, hdata]

/-- A successful `download_artifact` capture always holds at least two
lines (the tee'd log lines precede the echoed path), so the joined
captured value contains a newline. -/
theorem download_artifact_capture_polluted (env : PipelineEnv)
    (lines : List String) (h : download_artifact env = some lines) :
    strContainsNewline (joinLines lines) = true := by
  unfold download_artifact at h
  by_cases hd : env.downloadOk
  · simp only [hd, Bool.not_true, Bool.false_eq_true, if_false] at h
    cases hp : env.parsedFile with
    | some f =>
      rw [hp] at h
      by_cases he : (env.stat f).fileExists
      · simp only [he, if_pos] at h
        cases h
        exact joinLines_two_or_more_has_newline _ _ _
      · simp [he] at h
    | none =>
      rw [hp] at h
      cases hq : env.apkSearch with
      | none => rw [hq] at h; cases h
      | some f =>
        rw [hq] at h
        by_cases he : (env.stat f).fileExists
        · simp only [he, if_pos] at h
          cases h
          exact joinLines_two_or_more_has_newline _ _ _
        · simp [he] at h
  · simp [hd] at h

/-! ## Claims -/

/-- Claim C1: for every timeout budget T and poll interval I, when no
terminal build status is ever returned, `poll_github` performs at most
ceil(T/I) status queries (exactly the truncated T/I) and then reports a
timeout; with a 60-second budget and 30-second interval exactly 2
status queries occur before the TimedOut outcome. -/
theorem poll_github_timeout_budget (resp : Nat → GhPollEvent) (T I : Nat)
    (h : ∀ n, GhNonTerminal (resp n)) :
    (poll_github resp T I).1 = .timedOut
    ∧ (poll_github resp T I).2 = T / I
    ∧ (poll_github resp T I).2 ≤ (T + I - 1) / I
    ∧ (poll_github resp 60 30).1 = .timedOut
    ∧ (poll_github resp 60 30).2 = 2 := by
  have main : ∀ T' I', poll_github resp T' I' = (.timedOut, T' / I') := by
    intro T' I'
    unfold poll_github
    rw [poll_githubLoop_nonterminal resp h]
    simp
  refine ⟨by rw [main], by rw [main], ?_, by rw [main], by rw [main]⟩
  rw [main]
  rcases Nat.eq_zero_or_pos I with hI | hI
  · simp [hI]
  · exact Nat.div_le_div_right (by omega)

/-- Witness for C1: a run that always reports `in_progress` at a
60-second budget and 30-second interval makes exactly 2 queries and
times out. -/
theorem poll_github_timeout_budget_witness :
    (poll_github (fun _ => .status "in_progress" "null") 60 30).1 = .timedOut
    ∧ (poll_github (fun _ => .status "in_progress" "null") 60 30).2 = 2 := by
  have h : ∀ n : Nat,
      GhNonTerminal ((fun _ => GhPollEvent.status "in_progress" "null") n) :=
    fun _ => Or.inr ⟨"in_progress", "null", rfl, by decide⟩
  exact ⟨(poll_github_timeout_budget _ 60 30 h).2.2.2.1,
         (poll_github_timeout_budget _ 60 30 h).2.2.2.2⟩

/-- Claim C2 (code bug): `pollGitHubActions` with a 2-attempt budget
against a run that reported `completed:failure` at the very first query
performs a SECOND status query — the terminal build failure thrown in
the loop body is caught by the generic retry catch and retried — and
only at the final attempt does the failure reason propagate.  The claim
(and the spec) require the Failed transition to be immediate and
terminal with no further status queries. -/
theorem pollGitHubActions_retries_failed_status :
    pollGitHubActions (fun _ => .status "completed" "failure") "unused" 1
      = (.failure "Build failed with conclusion: failure", 2) := by rfl

/-- Claim C4: a download whose first response is a 301/302 redirect to
a final 200 response re-issues the request against the Location target
with the SAME headers (the request trace shows both requests carrying
the original auth headers), and the written file's byte size equals the
final response's content-length (for a response whose declared
content-length matches its body). -/
theorem downloadFile_follows_redirect
    (net : String → List (String × String) → HttpEvent) (fuel : Nat)
    (url0 u1 out : String) (hdrs : List (String × String))
    (r0 r1 : HttpResponse)
    (h0 : net url0 hdrs = .response r0)
    (hs0 : r0.statusCode = 302 ∨ r0.statusCode = 301)
    (hl : r0.location = some u1)
    (h1 : net u1 hdrs = .response r1)
    (hs1 : r1.statusCode = 200)
    (hcl : r1.contentLength = r1.body.length) :
    downloadFile net (fuel + 2) url0 out hdrs
      = (.ok out r1.contentLength, [(url0, hdrs), (u1, hdrs)]) := by
  have h2 : fuel + 2 = (fuel + 1) + 1 := rfl
  rw [h2]
  simp [downloadFile, h0, hs0, hl, h1, hs1, hcl]

/-- Witness network for C4: one 302 hop, then a 200 with 3 bytes. -/
def redirectNet : String → List (String × String) → HttpEvent := fun url _ =>
  if url = "https://cdn/redirect" then
    .response { statusCode := 302, location := some "https://cdn/final",
                contentLength := 0, body := [] }
  else
    .response { statusCode := 200, location := none,
                contentLength := 3, body := [7, 8, 9] }

/-- Witness for C4. -/
theorem downloadFile_follows_redirect_witness :
    downloadFile redirectNet 2 "https://cdn/redirect" "/tmp/a.zip"
        [("Authorization", "token t")]
      = (.ok "/tmp/a.zip" 3,
         [("https://cdn/redirect", [("Authorization", "token t")]),
          ("https://cdn/final", [("Authorization", "token t")])]) :=
  downloadFile_follows_redirect redirectNet 0 "https://cdn/redirect"
    "https://cdn/final" "/tmp/a.zip" [("Authorization", "token t")]
    { statusCode := 302, location := some "https://cdn/final",
      contentLength := 0, body := [] }
    { statusCode := 200, location := none, contentLength := 3, body := [7, 8, 9] }
    (by simp [redirectNet]) (Or.inl rfl) rfl (by simp [redirectNet]) rfl rfl

/-- Claim C9: the retriever fails — and never reports success with a
partial file — whenever the terminal (non-redirect) response status is
outside the 2xx range, the transfer stalls beyond the fixed 5-minute
ceiling, or a transport error occurs. -/
theorem downloadFile_fails_on_bad_response
    (net : String → List (String × String) → HttpEvent)
    (fuel : Nat) (url out : String) (hdrs : List (String × String))
    (h : (∃ r, net url hdrs = .response r ∧ r.statusCode ≠ 301 ∧ r.statusCode ≠ 302
            ∧ ¬(200 ≤ r.statusCode ∧ r.statusCode < 300))
        ∨ net url hdrs = .stall
        ∨ ∃ m, net url hdrs = .transportError m) :
    ∃ msg, downloadFile net (fuel + 1) url out hdrs = (.error msg, [(url, hdrs)]) := by
  rcases h with ⟨r, hr, h301, h302, h2xx⟩ | hst | ⟨m, htr⟩
  · refine ⟨"HTTP " ++ toString r.statusCode, ?_⟩
    have hcond : ¬(r.statusCode = 302 ∨ r.statusCode = 301) := by omega
    have hne200 : r.statusCode ≠ 200 := by omega
    simp [downloadFile, hr, hcond, hne200]
  · exact ⟨"Download timeout", by simp [downloadFile, hst]⟩
  · exact ⟨m, by simp [downloadFile, htr]⟩

/-- Witness network for C9: every request stalls. -/
def stallNet : String → List (String × String) → HttpEvent := fun _ _ => .stall

/-- Witness for C9. -/
theorem downloadFile_fails_on_bad_response_witness :
    ∃ msg, downloadFile stallNet 1 "https://x/y.apk" "/tmp/y.apk" []
      = (.error msg, [("https://x/y.apk", [])]) :=
  downloadFile_fails_on_bad_response stallNet 0 "https://x/y.apk" "/tmp/y.apk" []
    (Or.inr (Or.inl rfl))

/-- Extracted contents with the only payload file nested one level
down: the top level holds a single directory. -/
def nestedApkEntries : List FsTree := [.dir "sub" [.file "payload.apk"]]

/-- Claim C5 counterexample: on an archive whose only `.apk` sits in a
subdirectory, `extractArtifact` returns the unpacked directory — its
scan reads only the top-level entry names — although the recursive scan
the claim describes finds `payload.apk`. -/
theorem extractArtifact_misses_nested_payload :
    extractArtifact "/d/a.zip" (some nestedApkEntries) = "/d/a"
    ∧ findPayloadForest nestedApkEntries = some "payload.apk" := by
  exact ⟨rfl, rfl⟩

/-- Claim C5 (amended): for a `.zip` retrieval, `extractArtifact` scans
only the TOP LEVEL of the unpacked directory for the first entry with
an expected payload extension; when one is found its path is returned,
and when none is found the unpacked directory itself is returned
without error. -/
theorem extractArtifact_top_level_scan (zipPath : String) (entries : List FsTree)
    (hz : strEndsWith zipPath ".zip" = true) :
    ((entries.map FsTree.entryName).find? isExpectedPayload = none →
      extractArtifact zipPath (some entries) = extractDirOf zipPath)
    ∧ (∀ f, (entries.map FsTree.entryName).find? isExpectedPayload = some f →
      extractArtifact zipPath (some entries) = extractDirOf zipPath ++ "/" ++ f) := by
  constructor
  · intro h; simp [extractArtifact, hz, h]
  · intro f h; simp [extractArtifact, hz, h]

/-- Witness for the amended C5. -/
theorem extractArtifact_top_level_scan_witness :
    strEndsWith "/d/b.zip" ".zip" = true
    ∧ extractArtifact "/d/b.zip" (some [.file "x.apk"])
        = extractDirOf "/d/b.zip" ++ "/" ++ "x.apk" :=
  ⟨rfl, (extractArtifact_top_level_scan "/d/b.zip" [.file "x.apk"] rfl).2 "x.apk" rfl⟩

/-- Claim C6: `validateArtifact` fails exactly when the path does not
exist (NotFound) or the size is zero (Empty); an existing non-empty
file with an extension outside the expected payload set passes with
only a warning, and one with an expected extension passes with no
warning. -/
theorem validateArtifact_spec (stat : FileStat) (filePath : String) :
    ((validateArtifact stat filePath = .notFound
        ∨ validateArtifact stat filePath = .empty)
      ↔ (stat.fileExists = false ∨ stat.size = 0))
    ∧ (stat.fileExists = true → 0 < stat.size →
        strToLower (extname filePath) ∉ expectedExts →
        validateArtifact stat filePath = .passed true)
    ∧ (stat.fileExists = true → 0 < stat.size →
        strToLower (extname filePath) ∈ expectedExts →
        validateArtifact stat filePath = .passed false) := by
  unfold validateArtifact
  refine ⟨?_, ?_, ?_⟩
  · by_cases he : stat.fileExists <;> by_cases hs : stat.size = 0 <;>
      simp [he, hs]
    split <;> simp
  · intro he hs hc
    have hs0 : ¬stat.size = 0 := by omega
    simp [he, hs0, hc]
  · intro he hs hc
    have hs0 : ¬stat.size = 0 := by omega
    simp [he, hs0, hc]

/-- Witness for C6. -/
theorem validateArtifact_spec_witness :
    strToLower (extname "/d/app.apk") ∈ expectedExts
    ∧ validateArtifact { fileExists := true, size := 4096 } "/d/app.apk"
        = .passed false :=
  ⟨by decide,
   (validateArtifact_spec { fileExists := true, size := 4096 } "/d/app.apk").2.2
     rfl (by decide) (by decide)⟩

/-- Claim C10: `extractArtifact` is total (it is a Lean function, so it
returns a path for every input): a path not ending in `.zip` is
returned unchanged, and any failure of the unzip-and-scan try block
returns the original zip path instead of propagating the error. -/
theorem extractArtifact_total_soft_fail (zipPath : String)
    (unzipped : Option (List FsTree)) :
    (strEndsWith zipPath ".zip" = false → extractArtifact zipPath unzipped = zipPath)
    ∧ extractArtifact zipPath none = zipPath := by
  constructor
  · intro h
    simp [extractArtifact, h]
  · by_cases h : strEndsWith zipPath ".zip" <;> simp [extractArtifact, h]

/-- Witness for C10. -/
theorem extractArtifact_total_soft_fail_witness :
    strEndsWith "/d/raw.apk" ".zip" = false
    ∧ extractArtifact "/d/raw.apk" (some [.file "x.aab"]) = "/d/raw.apk" :=
  ⟨rfl, (extractArtifact_total_soft_fail "/d/raw.apk" (some [.file "x.aab"])).1 rfl⟩

/-- A realistic pipeline environment: the build reports success at the
first query, the node download succeeds with a clean parsed path, and
the filesystem contains exactly that file — in particular no file whose
name contains a newline, so nothing named by the tee-polluted captured
value exists. -/
def realisticEnv : PipelineEnv :=
  { pollEvents := fun _ => .status "completed" "success",
    timeoutSeconds := 1800,
    pollInterval := 30,
    ciProvider := "github",
    downloadCmd := "node download_artifact.js --provider github --out dir",
    downloadOk := true,
    parsedFile := some "/home/u/Downloads/orchestrator/app.apk",
    apkSearch := none,
    stat := fun p => if p = "/home/u/Downloads/orchestrator/app.apk"
                     then { fileExists := true, size := 4096 }
                     else { fileExists := false, size := 0 },
    autoInstall := true,
    installEnv := { termuxOpenAvail := true, termuxOpenOk := true,
                    adbAvail := false, deviceConnected := false,
                    adbInstallOk := false } }

/-- Claim C3: an artifact locator is constructed only after the build
status is exactly Succeeded — the driver reaches its download stage
only when the poll outcome is success, and the JS poller yields an
artifact URL only after observing a `completed`/`success` status — and
delivery-outcome construction begins only on a validated artifact: the
node downloader CLI reports success only after `validateArtifact`
passes, and the shell driver invokes `install_apk` in NO run whose
filesystem has no newline-bearing file names (every real one), because
the du size probe on the tee-polluted captured path fails first under
`set -euo pipefail`; hence no run installs a file that was not
validated. -/
theorem pipeline_gating :
    (∀ env : PipelineEnv, (poll_and_deliver_main env).downloadStarted = true →
        (poll_github env.pollEvents env.timeoutSeconds env.pollInterval).1
          = .success)
    ∧ (∀ (resp : Nat → JsPollEvent) (art : String) (m : Nat) (u : String) (q : Nat),
        pollGitHubActions resp art m = (.success u, q) →
        ∃ n, resp n = .status "completed" "success")
    ∧ (∀ (dl : Option String) (stat : String → FileStat) (p : String),
        nodeDownloaderMain dl stat = .success p →
        ∃ w, validateArtifact (stat p) p = .passed w)
    ∧ (∀ env : PipelineEnv,
        (∀ p : String, strContainsNewline p = true → (env.stat p).fileExists = false) →
        (poll_and_deliver_main env).installedAttemptedOn = none) := by
  refine ⟨?_, ?_, ?_, ?_⟩
  · intro env h
    unfold poll_and_deliver_main at h
    cases ho : (poll_github env.pollEvents env.timeoutSeconds env.pollInterval).1 with
    | success => rfl
    | failed c => rw [ho] at h; simp at h
    | timedOut => rw [ho] at h; simp at h
  · intro resp art m u q h
    exact pollGitHubActionsLoop_success_source resp art (m * 2) 0 u q h
  · intro dl stat p h
    cases dl with
    | none => simp [nodeDownloaderMain] at h
    | some path =>
      simp only [nodeDownloaderMain] at h
      cases hv : validateArtifact (stat path) path with
      | notFound => simp [hv] at h
      | empty => simp [hv] at h
      | passed w =>
        simp [hv] at h
        subst h
        exact ⟨w, hv⟩
  · intro env hfs
    unfold poll_and_deliver_main
    cases ho : (poll_github env.pollEvents env.timeoutSeconds env.pollInterval).1 with
    | failed c => rfl
    | timedOut => rfl
    | success =>
      cases hd : download_artifact env with
      | none => rfl
      | some capturedLines =>
        have hnl := download_artifact_capture_polluted env capturedLines hd
        have hstat := hfs (joinLines capturedLines) hnl
        simp [hstat]

/-- Witness for C3. -/
theorem pipeline_gating_witness :
    (poll_github realisticEnv.pollEvents realisticEnv.timeoutSeconds
        realisticEnv.pollInterval).1 = .success
    ∧ (∃ n, (fun _ : Nat => JsPollEvent.status "completed" "success") n
          = .status "completed" "success")
    ∧ (∃ w, validateArtifact
          ((fun _ => ({ fileExists := true, size := 4096 } : FileStat))
            "/d/app.apk") "/d/app.apk" = .passed w)
    ∧ (poll_and_deliver_main realisticEnv).installedAttemptedOn = none :=
  ⟨pipeline_gating.1 realisticEnv rfl,
   pipeline_gating.2.1 (fun _ => .status "completed" "success") "u" 1 "u" 1 rfl,
   pipeline_gating.2.2.1 (some "/d/app.apk")
     (fun _ => { fileExists := true, size := 4096 }) "/d/app.apk" rfl,
   pipeline_gating.2.2.2 realisticEnv (fun p hp => by
     by_cases h : p = "/home/u/Downloads/orchestrator/app.apk"
     · subst h
       exact absurd hp (by decide)
     · simp [realisticEnv, h])⟩

/-- An install environment where `--force-adb` is set, termux-open is
absent and every `adb install` invocation fails. -/
def forceRetryEnv : InstallEnv :=
  { forceAdb := true, termuxOpenAvail := false, termuxOpenOk := false,
    adbAvail := true, adbVersionOk := true, deviceAuthorized := true,
    adbInstallOk := fun _ => false }

/-- Claim C7 counterexample: under `--force-adb`, after the forced ADB
attempt fails, the chain falls back to the normal order and invokes ADB
a second time — so the chain is not strictly ordered 1, 2, 3 and does
retry a failed method. -/
theorem auto_install_force_adb_retries :
    install_via_adb forceRetryEnv 0 = false
    ∧ (auto_install_main forceRetryEnv).trace
        = [.adb, .termuxOpen, .adb, .manualFallback]
    ∧ (auto_install_main forceRetryEnv).trace.count .adb = 2 :=
  ⟨rfl, rfl, rfl⟩

/-- Claim C7 (amended): without `--force-adb` the chain attempts
methods strictly in the order termux-open, ADB, manual fallback, never
retrying a failed method; when method 1 is unavailable and method 2 is
available and its install succeeds, the outcome is
InstalledViaSecondary and method 3 is never invoked.  With
`--force-adb`, ADB is attempted first and, if that fails, the chain
falls back to the full normal order, so ADB may be attempted twice. -/
theorem auto_install_chain_order (e : InstallEnv) :
    (e.forceAdb = false →
      (auto_install_main e).trace = [.termuxOpen]
      ∨ (auto_install_main e).trace = [.termuxOpen, .adb]
      ∨ (auto_install_main e).trace = [.termuxOpen, .adb, .manualFallback])
    ∧ (e.forceAdb = false → e.termuxOpenAvail = false →
        install_via_adb e 0 = true →
        (auto_install_main e).outcome = .installedViaSecondary
        ∧ (auto_install_main e).trace = [.termuxOpen, .adb])
    ∧ (e.forceAdb = true →
      (auto_install_main e).trace = [.adb]
      ∨ (auto_install_main e).trace = [.adb, .termuxOpen]
      ∨ (auto_install_main e).trace = [.adb, .termuxOpen, .adb]
      ∨ (auto_install_main e).trace = [.adb, .termuxOpen, .adb, .manualFallback]) := by
  refine ⟨?_, ?_, ?_⟩
  · intro hf
    by_cases h1 : install_via_termux_open e
    · left; simp [auto_install_main, hf, h1]
    · by_cases h2 : install_via_adb e 0
      · right; left; simp [auto_install_main, hf, h1, h2]
      · right; right; simp [auto_install_main, hf, h1, h2]
  · intro hf ht h2
    have h1 : install_via_termux_open e = false := by
      simp [install_via_termux_open, ht]
    constructor <;> simp [auto_install_main, hf, h1, h2]
  · intro hf
    by_cases h0 : install_via_adb e 0
    · left; simp [auto_install_main, hf, h0]
    · by_cases h1 : install_via_termux_open e
      · right; left; simp [auto_install_main, hf, h0, h1]
      · by_cases h2 : install_via_adb e 1
        · right; right; left; simp [auto_install_main, hf, h0, h1, h2]
        · right; right; right; simp [auto_install_main, hf, h0, h1, h2]

/-- An install environment where termux-open is unavailable and ADB is
available with an authorized device and a succeeding install. -/
def secondarySucceedsEnv : InstallEnv :=
  { forceAdb := false, termuxOpenAvail := false, termuxOpenOk := false,
    adbAvail := true, adbVersionOk := true, deviceAuthorized := true,
    adbInstallOk := fun _ => true }

/-- Witness for the amended C7. -/
theorem auto_install_chain_order_witness :
    (auto_install_main secondarySucceedsEnv).outcome = .installedViaSecondary
    ∧ (auto_install_main secondarySucceedsEnv).trace = [.termuxOpen, .adb] :=
  (auto_install_chain_order secondarySucceedsEnv).2.1 rfl rfl rfl

/-- An install environment where no automatic method is available, so
the standalone installer ends in its manual fallback. -/
def noMethodEnv : InstallEnv :=
  { forceAdb := false, termuxOpenAvail := false, termuxOpenOk := false,
    adbAvail := false, adbVersionOk := false, deviceAuthorized := false,
    adbInstallOk := fun _ => false }

/-- Claim C8 (code bug evaluation): in a fully successful realistic run
— poll reports success, the node download succeeds, and the downloaded
file exists with 4096 bytes — the captured `apk_file` is the tee'd log
lines followed by the path, the du size probe on that multi-line value
fails, and the driver exits 1 without ever invoking `install_apk`.  The
claimed exit code 0 on full success (and the manual-fallback terminal
state) is unreachable; the standalone auto_install.sh does exit 1 on
its ManualRequired outcome and 0 on a successful method. -/
theorem pipeline_du_failure :
    download_artifact realisticEnv
      = some ["Downloading artifact from github",
              "Running: node download_artifact.js --provider github --out dir",
              "Downloaded: /home/u/Downloads/orchestrator/app.apk",
              "/home/u/Downloads/orchestrator/app.apk"]
    ∧ (realisticEnv.stat "/home/u/Downloads/orchestrator/app.apk").fileExists = true
    ∧ (poll_and_deliver_main realisticEnv).exitCode = 1
    ∧ (poll_and_deliver_main realisticEnv).installedAttemptedOn = none
    ∧ (auto_install_main noMethodEnv).outcome = .manualRequired
    ∧ (auto_install_main noMethodEnv).exitCode = 1 :=
  ⟨rfl, rfl, rfl, rfl, rfl, rfl⟩

end TermuxOrchestrator
